import Mathlib

/-!
Shallow embedding of the game logic of `gamepi.py` (namespace `Gamepi`)
and of the identical logic in `moonshot.py` (namespace `Moonshot`).

Modelling conventions:
* Python floats used as wall-clock timestamps are modelled as rationals.
* The Python lists `last_action_ts` and `led_values` are Lean `List`s,
  read via `List.getD` (defaulting to 0; all uses are in range 0..3)
  and written via `List.set`, mirroring Python indexing.
* `random.randint(0,1)` draws are passed in explicitly as a list of
  naturals, so a run is a pure function of its inputs.
* The I/O side effects (`update_score_display`, `update_soc_display`,
  the windmill pulse, `set_led`) are recorded as an explicit list of
  emitted output commands.
-/

namespace Gamepi

/-- `NUM_SENSORS` from gamepi.py. -/
def NUM_SENSORS : ℕ := 4

/-- `SOC_LEVELS` from gamepi.py. -/
def SOC_LEVELS : ℤ := 10

/-- `MAX_ACTIONS` from gamepi.py. -/
def MAX_ACTIONS : ℕ := 10

/-- `SOC_INCREMENT = (2, 3, 4, 2)` from gamepi.py. -/
def SOC_INCREMENT : List ℤ := [2, 3, 4, 2]

/-- The two push buttons, `"charge"` and `"discharge"`. -/
inductive Button where
  | charge : Button
  | discharge : Button
deriving DecidableEq, Repr

/-- Output commands emitted by the game logic towards the hardware/GUI
layer (`update_score_display`, `update_soc_display`, the windmill pulse of
`_spin_windmill_briefly`, and `set_led` calls of `_randomise_leds`). -/
inductive Output where
  | scoreDisplay : ℤ → Output
  | socDisplay : ℤ → Output
  | windmillPulse : Output
  | ledSet : ℕ → ℕ → Output
deriving DecidableEq, Repr

/-- The mutable game state of the `Game` class in gamepi.py:
`score`, `actions`, `soc`, `last_sensor`, `last_action_ts`, `led_values`. -/
structure GameState where
  score : ℤ
  actions : ℕ
  soc : ℤ
  last_sensor : Option ℕ
  last_action_ts : List ℚ
  led_values : List ℕ
deriving DecidableEq, Repr

/-- Initial state built by `Game.__init__`. -/
def initState : GameState :=
  { score := 0
    actions := 0
    soc := 10 / 2
    last_sensor := none
    last_action_ts := [0, 0, 0, 0]
    led_values := [0, 0, 0, 0] }

/-- The `set_led` outputs of `_randomise_leds` (one per sensor, with the
freshly drawn value). -/
def randomiseOutputs (rand : List ℕ) : List Output :=
  (List.range NUM_SENSORS).map (fun i => Output.ledSet i (rand.getD i 0))

/-- `Game._handle_action` from gamepi.py, as a pure function of the state,
the sensor index, the button, the current time `now` and the random LED
draws `rand` used by the trailing `_randomise_leds`.  Returns the new state
together with the list of emitted output commands; a cooldown-rejected
action returns the state unchanged and no outputs. -/
def handleAction (s : GameState) (sensor_idx : ℕ) (button : Button)
    (now : ℚ) (rand : List ℕ) : GameState × List Output :=
  if now - s.last_action_ts.getD sensor_idx 0 < 1 then (s, [])
  else
    let ts' := s.last_action_ts.set sensor_idx now
    let led_value := s.led_values.getD sensor_idx 0
    let score_delta : ℤ :=
      if led_value = 0 then
        match button with
        | .charge => 5
        | .discharge => 100
      else
        match button with
        | .charge => 50
        | .discharge => 5
    let soc_change : ℤ :=
      if led_value = 0 then
        match button with
        | .charge => SOC_INCREMENT.getD sensor_idx 0
        | .discharge => -1
      else
        match button with
        | .charge => SOC_INCREMENT.getD sensor_idx 0
        | .discharge => 0
    let soc_change :=
      if s.last_sensor ≠ none ∧ s.last_sensor ≠ some sensor_idx then
        soc_change - 1
      else soc_change
    let score' := s.score + score_delta
    let soc' := max 0 (min SOC_LEVELS (s.soc + soc_change))
    ({ score := score'
       actions := s.actions + 1
       soc := soc'
       last_sensor := some sensor_idx
       last_action_ts := ts'
       led_values := rand },
     [Output.scoreDisplay score', Output.socDisplay soc', Output.windmillPulse]
       ++ randomiseOutputs rand)

/-- `Game._start_new_round` from gamepi.py, up to entering `_play_round`:
resets `actions`, `soc`, `last_sensor`, `last_action_ts` and assigns the
fresh random LED values `rand`. -/
def startRound (s : GameState) (rand : List ℕ) : GameState :=
  { s with
    actions := 0
    soc := SOC_LEVELS / 2
    last_sensor := none
    last_action_ts := [0, 0, 0, 0]
    led_values := rand }

/-- `Game._full_reset` from gamepi.py, up to re-entering `idle`:
sets the score to 0 and leaves everything else untouched. -/
def fullReset (s : GameState) : GameState :=
  { s with score := 0 }

/-- The state effect of `Game.idle` from gamepi.py (everything it does is
output and waiting; it assigns no field of the game state), together with
the score redisplay it emits. -/
def idleEntry (s : GameState) : GameState × List Output :=
  (s, [Output.scoreDisplay s.score])

/-- `Game._get_active_sensor`: index of the first active sensor reading,
or `none`. -/
def getActiveSensor (sensors : List Bool) : Option ℕ :=
  sensors.findIdx? (· = true)

/-- One poll-loop iteration's worth of external inputs in `_play_round`:
the four sensor readings, the two button readings, the time read by
`time.time()` on this iteration, and the random LED draws consumed if an
action is accepted on this iteration. -/
structure Tick where
  sensors : List Bool
  charge : Bool
  discharge : Bool
  now : ℚ
  rand : List ℕ
deriving DecidableEq, Repr

/-- Result of one iteration of the `while` loop body of `_play_round`:
either the loop continues with a new state and combo timer, or
`_full_reset` fired and the round is over. -/
inductive TickResult where
  | cont : GameState → Option ℚ → TickResult
  | reset : GameState → TickResult
deriving DecidableEq, Repr

/-- One iteration of the `while` loop body of `_play_round` from gamepi.py:
the reset-combo check (updating the local `both_pressed_since`, modelled
as `bps`), then the action dispatch (`charge` checked before
`discharge`). -/
def tickStep (s : GameState) (bps : Option ℚ) (t : Tick) : TickResult :=
  let active := getActiveSensor t.sensors
  let comboFires : Bool :=
    t.charge && t.discharge &&
      (match bps with
       | none => false
       | some t0 => decide (3 ≤ t.now - t0))
  if comboFires then .reset (fullReset s)
  else
    let bps' : Option ℚ :=
      if t.charge && t.discharge then
        match bps with
        | none => some t.now
        | some t0 => some t0
      else none
    let s' :=
      match active with
      | some i =>
        if t.charge then (handleAction s i .charge t.now t.rand).1
        else if t.discharge then (handleAction s i .discharge t.now t.rand).1
        else s
      | none => s
    .cont s' bps'

/-- Outcome of running `_play_round` on a finite list of poll iterations:
the round ended normally (`roundOver`, loop guard `actions < MAX_ACTIONS`
failed, control returns to `idle`), the reset combo fired (`resetDone`),
or the supplied iterations ran out with the loop still going (`inPlay`). -/
inductive RoundResult where
  | inPlay : GameState → Option ℚ → RoundResult
  | roundOver : GameState → RoundResult
  | resetDone : GameState → RoundResult
deriving DecidableEq, Repr

/-- The `while self.actions < MAX_ACTIONS` loop of `_play_round` from
gamepi.py, driven by an explicit list of per-iteration inputs. -/
def runRound (s : GameState) (bps : Option ℚ) : List Tick → RoundResult
  | [] => if s.actions < MAX_ACTIONS then .inPlay s bps else .roundOver s
  | t :: rest =>
    if s.actions < MAX_ACTIONS then
      match tickStep s bps t with
      | .reset s' => .resetDone s'
      | .cont s' bps' => runRound s' bps' rest
    else .roundOver s

/-- Whether the loop iteration with inputs `t` from state `s` (combo timer
`bps`) accepts a scoring action: the reset combo does not fire, a sensor is
active, a button is read as pressed, and the 1 s same-sensor cooldown has
elapsed. -/
def acceptedAt (s : GameState) (bps : Option ℚ) (t : Tick) : Bool :=
  let comboFires : Bool :=
    t.charge && t.discharge &&
      (match bps with
       | none => false
       | some t0 => decide (3 ≤ t.now - t0))
  !comboFires &&
    (match getActiveSensor t.sensors with
     | some i =>
       (t.charge || t.discharge) &&
         !(decide (t.now - s.last_action_ts.getD i 0 < 1))
     | none => false)

/-- Number of loop iterations along a run of `_play_round` that accept a
scoring action (cooldown-rejected dispatches are not counted). -/
def countAccepted (s : GameState) (bps : Option ℚ) : List Tick → ℕ
  | [] => 0
  | t :: rest =>
    if s.actions < MAX_ACTIONS then
      match tickStep s bps t with
      | .reset _ => 0
      | .cont s' bps' =>
        (if acceptedAt s bps t then 1 else 0) + countAccepted s' bps' rest
    else 0

end Gamepi

namespace Moonshot

/-- `SOC_LEVELS` from moonshot.py. -/
def SOC_LEVELS : ℤ := 10

/-- `MAX_ACTIONS` from moonshot.py. -/
def MAX_ACTIONS : ℕ := 10

/-- `SOC_INCREMENT = (2, 3, 4, 2)` from moonshot.py. -/
def SOC_INCREMENT : List ℤ := [2, 3, 4, 2]

/-- `Game._handle_action` from moonshot.py (state part), as a pure
function of the state, the sensor index, the button, the current time and
the random LED draws used by the trailing `_randomise_leds`.  The GUI
updates of moonshot.py are marshalled through `display.after` and touch no
game state, so only the state evolution is modelled here. -/
def handleAction (s : Gamepi.GameState) (sensor_idx : ℕ)
    (button : Gamepi.Button) (now : ℚ) (rand : List ℕ) : Gamepi.GameState :=
  if now - s.last_action_ts.getD sensor_idx 0 < 1 then s
  else
    let ts' := s.last_action_ts.set sensor_idx now
    let led_value := s.led_values.getD sensor_idx 0
    let score_delta : ℤ :=
      if led_value = 0 then
        match button with
        | .charge => 5
        | .discharge => 100
      else
        match button with
        | .charge => 50
        | .discharge => 5
    let soc_change : ℤ :=
      if led_value = 0 then
        match button with
        | .charge => SOC_INCREMENT.getD sensor_idx 0
        | .discharge => -1
      else
        match button with
        | .charge => SOC_INCREMENT.getD sensor_idx 0
        | .discharge => 0
    let soc_change :=
      if s.last_sensor ≠ none ∧ s.last_sensor ≠ some sensor_idx then
        soc_change - 1
      else soc_change
    { score := s.score + score_delta
      actions := s.actions + 1
      soc := max 0 (min SOC_LEVELS (s.soc + soc_change))
      last_sensor := some sensor_idx
      last_action_ts := ts'
      led_values := rand }

/-- `Game._start_new_round` from moonshot.py, up to entering
`_play_round`. -/
def startRound (s : Gamepi.GameState) (rand : List ℕ) : Gamepi.GameState :=
  { s with
    actions := 0
    soc := SOC_LEVELS / 2
    last_sensor := none
    last_action_ts := [0, 0, 0, 0]
    led_values := rand }

/-- `Game._full_reset` from moonshot.py, up to re-entering `idle`. -/
def fullReset (s : Gamepi.GameState) : Gamepi.GameState :=
  { s with score := 0 }

/-- One iteration of the `while` loop body of `_play_round` from
moonshot.py: reset-combo check, then action dispatch with `charge`
checked before `discharge`. -/
def tickStep (s : Gamepi.GameState) (bps : Option ℚ) (t : Gamepi.Tick) :
    Gamepi.TickResult :=
  let active := Gamepi.getActiveSensor t.sensors
  let comboFires : Bool :=
    t.charge && t.discharge &&
      (match bps with
       | none => false
       | some t0 => decide (3 ≤ t.now - t0))
  if comboFires then .reset (fullReset s)
  else
    let bps' : Option ℚ :=
      if t.charge && t.discharge then
        match bps with
        | none => some t.now
        | some t0 => some t0
      else none
    let s' :=
      match active with
      | some i =>
        if t.charge then handleAction s i .charge t.now t.rand
        else if t.discharge then handleAction s i .discharge t.now t.rand
        else s
      | none => s
    .cont s' bps'

/-- The `while self.actions < MAX_ACTIONS` loop of `_play_round` from
moonshot.py, driven by an explicit list of per-iteration inputs. -/
def runRound (s : Gamepi.GameState) (bps : Option ℚ) :
    List Gamepi.Tick → Gamepi.RoundResult
  | [] => if s.actions < MAX_ACTIONS then .inPlay s bps else .roundOver s
  | t :: rest =>
    if s.actions < MAX_ACTIONS then
      match tickStep s bps t with
      | .reset s' => .resetDone s'
      | .cont s' bps' => runRound s' bps' rest
    else .roundOver s

end Moonshot

namespace Gamepi

/-- The score column of the spec's §4.1 delta table, transcribed from the
spec's words: ledValue 0 with charge gives +5, 0 with discharge +100,
1 with charge +50, 1 with discharge +5 (any nonzero ledValue is green). -/
def specScoreDelta (ledValue : ℕ) (button : Button) : ℤ :=
  match ledValue, button with
  | 0, .charge => 5
  | 0, .discharge => 100
  | _ + 1, .charge => 50
  | _ + 1, .discharge => 5

/-- The SoC column of the spec's §4.1 delta table (before the switch
penalty), transcribed from the spec's words: charge gives
+SOC_INCREMENT[sensorIndex] at either ledValue, ledValue 0 with discharge
gives −1, ledValue 1 with discharge gives 0. -/
def specSocDelta (ledValue : ℕ) (button : Button) (sensorIndex : ℕ) : ℤ :=
  match ledValue, button with
  | 0, .charge => SOC_INCREMENT.getD sensorIndex 0
  | 0, .discharge => -1
  | _ + 1, .charge => SOC_INCREMENT.getD sensorIndex 0
  | _ + 1, .discharge => 0

/-- The switch-penalty term of the spec's §4.1 rules: −1 exactly when
`lastActiveSensor` is set and differs from `sensorIndex`. -/
def specSwitchPenalty (last_sensor : Option ℕ) (sensorIndex : ℕ) : ℤ :=
  if last_sensor ≠ none ∧ last_sensor ≠ some sensorIndex then -1 else 0

/-- Whether a tick result is the `_full_reset` exit of the play loop. -/
def TickResult.isReset : TickResult → Bool
  | .reset _ => true
  | .cont _ _ => false

/-- The combo timer (`both_pressed_since`) carried out of a continuing
loop iteration; `none` for the reset exit. -/
def TickResult.combo : TickResult → Option ℚ
  | .reset _ => none
  | .cont _ b => b

/-- Whether a round outcome is the normal `actions = MAX_ACTIONS` exit
back to `idle`. -/
def RoundResult.isOver : RoundResult → Bool
  | .roundOver _ => true
  | _ => false

/-- Whether the action dispatch of one loop iteration with inputs `t`
would be a no-op from state `s`: no sensor is active, or the first active
sensor is still in its 1 s cooldown.  (In the real program an *accepted*
action blocks inside `_handle_action` until both buttons are released, so
a run of consecutive polls that all read both buttons as pressed can only
contain dispatches of this kind.) -/
def dispatchRejected (s : GameState) (t : Tick) : Bool :=
  match getActiveSensor t.sensors with
  | some i => decide (t.now - s.last_action_ts.getD i 0 < 1)
  | none => true

/-- The inputs of one direct `_handle_action` call: sensor index, button,
`time.time()` value, and the random LED draws for `_randomise_leds`. -/
structure ActionInput where
  sensor : ℕ
  button : Button
  now : ℚ
  rand : List ℕ
deriving DecidableEq, Repr

/-- A sequence of `_handle_action` calls applied to a state. -/
def applyActions (s : GameState) (acts : List ActionInput) : GameState :=
  acts.foldl (fun st a => (handleAction st a.sensor a.button a.now a.rand).1) s

end Gamepi

namespace Gamepi

/-- An accepted `_handle_action` realises the §4.1 table: the score grows
by the table's score delta and the SoC is the clamp of the table's SoC
delta plus the switch-penalty term (shared helper). -/
lemma handleAction_table (s : GameState) (i : ℕ) (b : Button) (now : ℚ)
    (rand : List ℕ)
    (hcool : ¬ (now - s.last_action_ts.getD i 0 < 1)) :
    (handleAction s i b now rand).1.score
        = s.score + specScoreDelta (s.led_values.getD i 0) b ∧
    (handleAction s i b now rand).1.soc
        = max 0 (min SOC_LEVELS
            (s.soc + (specSocDelta (s.led_values.getD i 0) b i
                       + specSwitchPenalty s.last_sensor i))) := by
  cases h : s.led_values.getD i 0 <;> cases b <;>
    simp only [handleAction, specScoreDelta, specSocDelta, specSwitchPenalty,
      h, if_neg hcool] <;>
    constructor <;> simp <;> split <;> ring_nf

/-- C1: for every accepted action (one that passes the 1 s same-sensor
cooldown) on a valid sensor whose LED value is 0 or 1, `_handle_action`
adds exactly the §4.1 table's score delta to the score, and updates the
SoC by clamping the sum of the table's SoC delta and the switch-penalty
term; the table is exhaustive over ledValue ∈ {0,1} × {charge,discharge}. -/
theorem C1_table_deltas (s : GameState) (i : ℕ) (b : Button) (now : ℚ)
    (rand : List ℕ) (hi : i < NUM_SENSORS)
    (hled : s.led_values.getD i 0 = 0 ∨ s.led_values.getD i 0 = 1)
    (hcool : ¬ (now - s.last_action_ts.getD i 0 < 1)) :
    (handleAction s i b now rand).1.score
        = s.score + specScoreDelta (s.led_values.getD i 0) b ∧
    (handleAction s i b now rand).1.soc
        = max 0 (min SOC_LEVELS
            (s.soc + (specSocDelta (s.led_values.getD i 0) b i
                       + specSwitchPenalty s.last_sensor i))) :=
  handleAction_table s i b now rand hcool

/-- C1 witness: a concrete accepted action (sensor 1, green LED, charge)
realising the table row +50 / +SOC_INCREMENT[1]. -/
theorem C1_table_deltas_witness :
    ((1 : ℕ) < NUM_SENSORS) ∧
    (({ initState with led_values := [0, 1, 0, 1] } :
        GameState).led_values.getD 1 0 = 0 ∨
      ({ initState with led_values := [0, 1, 0, 1] } :
        GameState).led_values.getD 1 0 = 1) ∧
    ¬ ((2 : ℚ) - ({ initState with led_values := [0, 1, 0, 1] } :
        GameState).last_action_ts.getD 1 0 < 1) ∧
    ((handleAction { initState with led_values := [0, 1, 0, 1] } 1 .charge 2
        [0, 0, 0, 0]).1.score
      = ({ initState with led_values := [0, 1, 0, 1] } : GameState).score
          + specScoreDelta 1 .charge ∧
     (handleAction { initState with led_values := [0, 1, 0, 1] } 1 .charge 2
        [0, 0, 0, 0]).1.soc
      = max 0 (min SOC_LEVELS
          (({ initState with led_values := [0, 1, 0, 1] } : GameState).soc
            + (specSocDelta 1 .charge 1
                + specSwitchPenalty ({ initState with
                    led_values := [0, 1, 0, 1] } : GameState).last_sensor 1)))) :=
  ⟨by decide, by simp [initState], by simp [initState],
    C1_table_deltas _ 1 .charge 2 [0, 0, 0, 0] (by decide)
      (by simp [initState]) (by simp [initState])⟩

/-- A cooldown-rejected `_handle_action` is a complete no-op (shared
helper). -/
lemma handleAction_cooldown (s : GameState) (i : ℕ) (b : Button) (now : ℚ)
    (rand : List ℕ) (h : now - s.last_action_ts.getD i 0 < 1) :
    handleAction s i b now rand = (s, []) := by
  unfold handleAction
  rw [if_pos h]

/-- C4: a `_handle_action` call on a sensor whose last accepted action was
less than 1 s ago changes no state at all and emits no output command —
the cooldown test reads only that sensor's own timestamp. -/
theorem C4_cooldown_noop (s : GameState) (i : ℕ) (b : Button) (now : ℚ)
    (rand : List ℕ) (h : now - s.last_action_ts.getD i 0 < 1) :
    handleAction s i b now rand = (s, []) :=
  handleAction_cooldown s i b now rand h

/-- C4 witness: a concrete rejected action (0.5 s after the sensor's last
accepted action) leaves the state untouched and emits nothing. -/
theorem C4_cooldown_noop_witness :
    ((0.5 : ℚ) - ({ initState with last_action_ts := [0, 0, 0, 0] } :
        GameState).last_action_ts.getD 0 0 < 1) ∧
    handleAction { initState with last_action_ts := [0, 0, 0, 0] } 0 .charge 0.5
        [1, 1, 1, 1]
      = ({ initState with last_action_ts := [0, 0, 0, 0] }, []) :=
  ⟨by simp [initState]; norm_num,
    C4_cooldown_noop _ 0 .charge 0.5 [1, 1, 1, 1] (by simp [initState]; norm_num)⟩


/-- An accepted action clamps the SoC into `[0, SOC_LEVELS]`; a rejected
one leaves it unchanged (shared helper for the SoC invariant). -/
lemma handleAction_soc_clamped (s : GameState) (a : ActionInput)
    (h0 : 0 ≤ s.soc) (h1 : s.soc ≤ SOC_LEVELS) :
    0 ≤ (handleAction s a.sensor a.button a.now a.rand).1.soc ∧
      (handleAction s a.sensor a.button a.now a.rand).1.soc ≤ SOC_LEVELS := by
  unfold handleAction
  split
  · exact ⟨h0, h1⟩
  · refine ⟨le_max_left _ _, max_le ?_ (min_le_left _ _)⟩
    norm_num [SOC_LEVELS]

/-- C2: in a round started by `_start_new_round` (which sets the SoC to
5), the SoC stays within `0 ≤ soc ≤ SOC_LEVELS = 10` after every sequence
of `_handle_action` calls, because each accepted update clamps
`soc + socDelta` into `[0, SOC_LEVELS]`. -/
theorem C2_soc_bounds (s : GameState) (rand : List ℕ)
    (acts : List ActionInput) :
    0 ≤ (applyActions (startRound s rand) acts).soc ∧
      (applyActions (startRound s rand) acts).soc ≤ SOC_LEVELS := by
  have key : ∀ (l : List ActionInput) (st : GameState),
      0 ≤ st.soc → st.soc ≤ SOC_LEVELS →
      0 ≤ (applyActions st l).soc ∧ (applyActions st l).soc ≤ SOC_LEVELS := by
    intro l
    induction l with
    | nil => intro st h0 h1; exact ⟨h0, h1⟩
    | cons a rest ih =>
      intro st h0 h1
      have hstep := handleAction_soc_clamped st a h0 h1
      simpa [applyActions] using ih _ hstep.1 hstep.2
  exact key acts _ (by norm_num [startRound, SOC_LEVELS])
    (by norm_num [startRound, SOC_LEVELS])

/-- C8: the concrete two-action trace of the spec's example: after
`_start_new_round` (SoC 5), an accepted discharge on sensor 0 with LED 0
adds 100 to the score and leaves SoC 4 and one action taken; a following
accepted charge on sensor 1 with LED 1 adds another 50 (total +150) and
with the switch penalty leaves SoC 6 and two actions taken. -/
theorem C8_concrete_trace :
    (startRound initState [0, 1, 0, 1]).soc = 5 ∧
    (handleAction (startRound initState [0, 1, 0, 1]) 0 .discharge 5
        [0, 1, 0, 0]).1.score = (startRound initState [0, 1, 0, 1]).score + 100 ∧
    (handleAction (startRound initState [0, 1, 0, 1]) 0 .discharge 5
        [0, 1, 0, 0]).1.soc = 4 ∧
    (handleAction (startRound initState [0, 1, 0, 1]) 0 .discharge 5
        [0, 1, 0, 0]).1.actions = 1 ∧
    (handleAction (handleAction (startRound initState [0, 1, 0, 1]) 0 .discharge 5
        [0, 1, 0, 0]).1 1 .charge 7 [0, 0, 0, 0]).1.score
      = (startRound initState [0, 1, 0, 1]).score + 150 ∧
    (handleAction (handleAction (startRound initState [0, 1, 0, 1]) 0 .discharge 5
        [0, 1, 0, 0]).1 1 .charge 7 [0, 0, 0, 0]).1.soc = 6 ∧
    (handleAction (handleAction (startRound initState [0, 1, 0, 1]) 0 .discharge 5
        [0, 1, 0, 0]).1 1 .charge 7 [0, 0, 0, 0]).1.actions = 2 := by
  norm_num [startRound, initState, handleAction, SOC_INCREMENT, SOC_LEVELS]
  simp

end Gamepi

namespace Gamepi

/-- C9: the phase transitions leave the score alone — `_start_new_round`
keeps it, `idle` entry keeps the whole state, and the normal round end
(the loop guard failing at `actions = MAX_ACTIONS`, for any remaining
inputs) hands the state to `idle` unchanged — while `_full_reset` alone
zeroes the score; and `_start_new_round` always resets the SoC to
`SOC_LEVELS / 2 = 5` (integer floor), the action count to 0, the last
active sensor to `None`, and every per-sensor timestamp to 0. -/
theorem C9_score_frame (s : GameState) (rand : List ℕ) (bps : Option ℚ)
    (ticks : List Tick) :
    (startRound s rand).score = s.score ∧
    (startRound s rand).soc = SOC_LEVELS / 2 ∧
    (startRound s rand).soc = 5 ∧
    (startRound s rand).actions = 0 ∧
    (startRound s rand).last_sensor = none ∧
    (startRound s rand).last_action_ts = [0, 0, 0, 0] ∧
    (idleEntry s).1 = s ∧
    runRound { s with actions := MAX_ACTIONS } bps ticks
      = .roundOver { s with actions := MAX_ACTIONS } ∧
    (fullReset s).score = 0 ∧
    (fullReset s).soc = s.soc ∧
    (fullReset s).actions = s.actions ∧
    (fullReset s).last_sensor = s.last_sensor ∧
    (fullReset s).last_action_ts = s.last_action_ts := by
  refine ⟨rfl, rfl, by norm_num [startRound, SOC_LEVELS], rfl, rfl, rfl, rfl,
    ?_, rfl, rfl, rfl, rfl, rfl⟩
  cases ticks <;> simp [runRound, MAX_ACTIONS]

/-- C3 counterexample: with SoC 0, a green LED on sensor 0 and the
discharge button (table SoC delta 0), the clamp at 0 absorbs the switch
penalty — coming from sensor 1 yields SoC 0, the same value as repeating
sensor 0, not exactly one lower. -/
theorem C3_counterexample :
    (handleAction
        { score := 0, actions := 0, soc := 0, last_sensor := some 1,
          last_action_ts := [0, 0, 0, 0], led_values := [1, 1, 1, 1] }
        0 .discharge 5 [0, 0, 0, 0]).1.soc
      ≠ (handleAction
          { score := 0, actions := 0, soc := 0, last_sensor := some 0,
            last_action_ts := [0, 0, 0, 0], led_values := [1, 1, 1, 1] }
          0 .discharge 5 [0, 0, 0, 0]).1.soc - 1 := by
  norm_num [handleAction, SOC_INCREMENT, SOC_LEVELS]
  simp

/-- C3 amended: switching sensors subtracts exactly 1 more from the SoC
delta before clamping, so the resulting SoC is exactly 1 lower than with
`lastActiveSensor` equal to the acted-on sensor whenever neither clamp
bound binds (when clamping occurs the difference can shrink to 0). -/
theorem C3_switch_costs_one (s : GameState) (i j : ℕ) (b : Button)
    (now : ℚ) (rand : List ℕ) (hj : j ≠ i)
    (hcool : ¬ (now - s.last_action_ts.getD i 0 < 1))
    (hlow : 0 ≤ s.soc + specSocDelta (s.led_values.getD i 0) b i - 1)
    (hhigh : s.soc + specSocDelta (s.led_values.getD i 0) b i ≤ SOC_LEVELS) :
    (handleAction { s with last_sensor := some j } i b now rand).1.soc
      = (handleAction { s with last_sensor := some i } i b now rand).1.soc
          - 1 := by
  obtain ⟨-, hsoc_j⟩ :=
    handleAction_table { s with last_sensor := some j } i b now rand hcool
  obtain ⟨-, hsoc_i⟩ :=
    handleAction_table { s with last_sensor := some i } i b now rand hcool
  rw [hsoc_j, hsoc_i]
  rw [show specSwitchPenalty (some j) i = -1 from by
        simp [specSwitchPenalty, hj],
      show specSwitchPenalty (some i) i = 0 from by
        simp [specSwitchPenalty]]
  rw [show s.soc + (specSocDelta (s.led_values.getD i 0) b i + -1)
        = s.soc + specSocDelta (s.led_values.getD i 0) b i - 1 from by ring,
      show s.soc + (specSocDelta (s.led_values.getD i 0) b i + 0)
        = s.soc + specSocDelta (s.led_values.getD i 0) b i from by ring]
  rw [min_eq_right (by linarith), min_eq_right hhigh,
      max_eq_right (by linarith), max_eq_right (by linarith)]

end Gamepi

namespace Gamepi

/-- C3 amended witness: from SoC 5 with a red LED on sensor 0 (table SoC
delta 2, no clamping), switching from sensor 1 gives SoC 6, exactly one
below the SoC 7 of repeating sensor 0. -/
theorem C3_switch_costs_one_witness :
    ((1 : ℕ) ≠ 0) ∧
    (¬ ((2 : ℚ) - initState.last_action_ts.getD 0 0 < 1)) ∧
    (0 ≤ initState.soc
          + specSocDelta (initState.led_values.getD 0 0) .charge 0 - 1) ∧
    (initState.soc
        + specSocDelta (initState.led_values.getD 0 0) .charge 0
      ≤ SOC_LEVELS) ∧
    (handleAction { initState with last_sensor := some 1 } 0 .charge 2
        [0, 0, 0, 0]).1.soc
      = (handleAction { initState with last_sensor := some 0 } 0 .charge 2
          [0, 0, 0, 0]).1.soc - 1 :=
  ⟨by decide, by simp [initState], by decide, by decide,
    C3_switch_costs_one initState 0 1 .charge 2 [0, 0, 0, 0] (by decide)
      (by simp [initState]) (by decide) (by decide)⟩

/-- C7 counterexample: on a Playing tick with both buttons pressed, a
fresh combo (no prior both-pressed poll) and sensor 0 active with a green
LED, the loop body still dispatches `_handle_action` with the charge
button: the score grows by 50 and an action is consumed, so the
reset-check does not consume the tick. -/
theorem C7_counterexample :
    tickStep
        { score := 0, actions := 0, soc := 5, last_sensor := none,
          last_action_ts := [0, 0, 0, 0], led_values := [1, 0, 0, 0] }
        none
        { sensors := [true, false, false, false], charge := true,
          discharge := true, now := 5, rand := [0, 0, 0, 0] }
      = .cont
          { score := 50, actions := 1, soc := 7, last_sensor := some 0,
            last_action_ts := [5, 0, 0, 0], led_values := [0, 0, 0, 0] }
          (some 5) := by
  norm_num [tickStep, getActiveSensor, handleAction, fullReset,
    SOC_INCREMENT, SOC_LEVELS, List.findIdx?]

/-- C7 amended: on a Playing tick where both buttons are read as pressed
but the combo has lasted less than 3 s, the loop body does not consume
the tick: with a sensor active it dispatches `_handle_action` with the
charge button (charge priority), and the combo timer is started or kept. -/
theorem C7_both_held_still_scores (s : GameState) (bps : Option ℚ)
    (t : Tick) (i : ℕ) (hc : t.charge = true) (hd : t.discharge = true)
    (hyoung : ∀ t0, bps = some t0 → t.now - t0 < 3)
    (hact : getActiveSensor t.sensors = some i) :
    tickStep s bps t
      = .cont (handleAction s i .charge t.now t.rand).1
          (match bps with
           | none => some t.now
           | some t0 => some t0) := by
  cases bps with
  | none => simp [tickStep, hc, hd, hact]
  | some t0 =>
    have h3 : ¬ (3 ≤ t.now - t0) := by
      have := hyoung t0 rfl
      linarith
    simp [tickStep, hc, hd, hact, h3]

/-- C7 amended witness: both buttons pressed 2 s into the combo with
sensor 0 active still dispatches the charge action. -/
theorem C7_both_held_still_scores_witness :
    (true = true) ∧ (true = true) ∧
    (∀ t0, (some (3 : ℚ) = some t0) → (5 : ℚ) - t0 < 3) ∧
    (getActiveSensor [true, false, false, false] = some 0) ∧
    tickStep initState (some 3)
        ⟨[true, false, false, false], true, true, 5, [0, 0, 0, 0]⟩
      = .cont (handleAction initState 0 .charge 5 [0, 0, 0, 0]).1 (some 3) :=
  ⟨rfl, rfl, by intro t0 h; simp at h; subst h; norm_num, by rfl,
    C7_both_held_still_scores initState (some 3)
      ⟨[true, false, false, false], true, true, 5, [0, 0, 0, 0]⟩ 0 rfl rfl
      (by intro t0 h; simp at h; subst h; norm_num) (by rfl)⟩

end Gamepi

namespace Gamepi

/-- On a both-pressed iteration whose dispatch is a no-op and whose combo
timer has not yet reached 3 s, the loop continues with the state and the
combo timer unchanged (shared helper). -/
lemma tickStep_hold_cont (s : GameState) (T : ℚ) (u : Tick)
    (hc : u.charge = true) (hd : u.discharge = true)
    (h3 : ¬ (3 ≤ u.now - T)) (hrej : dispatchRejected s u = true) :
    tickStep s (some T) u = .cont s (some T) := by
  unfold tickStep
  simp only [hc, hd, Bool.true_and, h3, decide_eq_true_eq, decide_False,
    if_false, Bool.and_false, Bool.false_and, Bool.and_true, if_true,
    decide_eq_false h3]
  unfold dispatchRejected at hrej
  cases hm : getActiveSensor u.sensors with
  | none => simp [hm]
  | some i =>
    rw [hm] at hrej
    simp only [decide_eq_true_eq] at hrej
    simp [hm, handleAction_cooldown s i .charge u.now u.rand hrej]

/-- On a both-pressed iteration whose combo timer is at least 3 s old, the
loop body performs `_full_reset` and exits (shared helper). -/
lemma tickStep_hold_fires (s : GameState) (T : ℚ) (u : Tick)
    (hc : u.charge = true) (hd : u.discharge = true)
    (h3 : 3 ≤ u.now - T) :
    tickStep s (some T) u = .reset (fullReset s) := by
  unfold tickStep
  simp [hc, hd, h3]

/-- A run of both-pressed, dispatch-rejected iterations starting with the
combo timer at `T` ends in `_full_reset` as soon as an iteration is at
least 3 s past `T` (shared helper). -/
lemma runRound_hold_resets (rest : List Tick) : ∀ (s : GameState) (T : ℚ),
    s.actions < MAX_ACTIONS →
    (∀ u ∈ rest, u.charge = true ∧ u.discharge = true ∧
      dispatchRejected s u = true) →
    (∃ u ∈ rest, 3 ≤ u.now - T) →
    runRound s (some T) rest = .resetDone (fullReset s) := by
  induction rest with
  | nil =>
    intro s T _ _ hfire
    simp at hfire
  | cons u us ih =>
    intro s T hact hall hfire
    obtain ⟨hc, hd, hrej⟩ := hall u (by simp)
    by_cases h3 : 3 ≤ u.now - T
    · rw [runRound, if_pos hact, tickStep_hold_fires s T u hc hd h3]
    · rw [runRound, if_pos hact, tickStep_hold_cont s T u hc hd h3 hrej]
      refine ih s T hact (fun v hv => hall v (by simp [hv])) ?_
      obtain ⟨v, hv, h3v⟩ := hfire
      rcases List.mem_cons.mp hv with rfl | hv'
      · exact absurd h3v h3
      · exact ⟨v, hv', h3v⟩

/-- C6: during Playing, a poll iteration that reads both buttons pressed
with no accepted dispatch starts the combo timer, and if the following
polls keep reading both buttons pressed (still with no accepted dispatch,
as the release-wait inside `_handle_action` makes inevitable) until one is
at least 3 s after the first, `_full_reset` fires: the score becomes 0 and
the round ends, regardless of the current `actions` count.  Conversely, an
iteration that reads either button released never resets and clears the
combo timer to unset. -/
theorem C6_reset_combo (s : GameState) (t1 : Tick) (rest : List Tick)
    (bps : Option ℚ) (t : Tick)
    (hact : s.actions < MAX_ACTIONS)
    (h1c : t1.charge = true) (h1d : t1.discharge = true)
    (h1r : dispatchRejected s t1 = true)
    (hall : ∀ u ∈ rest, u.charge = true ∧ u.discharge = true ∧
      dispatchRejected s u = true)
    (hfire : ∃ u ∈ rest, 3 ≤ u.now - t1.now)
    (hrel : ¬ (t.charge = true ∧ t.discharge = true)) :
    runRound s none (t1 :: rest) = .resetDone (fullReset s) ∧
    (tickStep s bps t).isReset = false ∧
    (tickStep s bps t).combo = none := by
  refine ⟨?_, ?_⟩
  · have hstep : tickStep s none t1 = .cont s (some t1.now) := by
      unfold tickStep
      simp only [h1c, h1d, Bool.true_and, Bool.and_false, Bool.and_true,
        if_true]
      unfold dispatchRejected at h1r
      cases hm : getActiveSensor t1.sensors with
      | none => simp [hm]
      | some i =>
        rw [hm] at h1r
        simp only [decide_eq_true_eq] at h1r
        simp [hm, handleAction_cooldown s i .charge t1.now t1.rand h1r]
    rw [runRound, if_pos hact, hstep]
    exact runRound_hold_resets rest s t1.now hact hall hfire
  · unfold tickStep
    cases hc : t.charge with
    | false =>
      cases hm : getActiveSensor t.sensors <;>
        simp [hm, TickResult.isReset, TickResult.combo]
    | true =>
      have hd : t.discharge = false := by
        cases hdc : t.discharge
        · rfl
        · exact absurd ⟨hc, hdc⟩ hrel
      cases hm : getActiveSensor t.sensors <;>
        simp [hm, hd, TickResult.isReset, TickResult.combo]

end Gamepi

namespace Gamepi

/-- C6 witness: with no sensors active and both buttons held on two polls
3 s apart, a fresh round resets; a charge-only poll never resets and
clears the combo timer. -/
theorem C6_reset_combo_witness :
    ((startRound initState [0, 0, 0, 0]).actions < MAX_ACTIONS) ∧
    ((⟨[false, false, false, false], true, true, 0, []⟩ : Tick).charge
      = true) ∧
    ((⟨[false, false, false, false], true, true, 0, []⟩ : Tick).discharge
      = true) ∧
    (dispatchRejected (startRound initState [0, 0, 0, 0])
        ⟨[false, false, false, false], true, true, 0, []⟩ = true) ∧
    (∀ u ∈ [(⟨[false, false, false, false], true, true, 3, []⟩ : Tick)],
      u.charge = true ∧ u.discharge = true ∧
        dispatchRejected (startRound initState [0, 0, 0, 0]) u = true) ∧
    (∃ u ∈ [(⟨[false, false, false, false], true, true, 3, []⟩ : Tick)],
      3 ≤ u.now
        - (⟨[false, false, false, false], true, true, 0, []⟩ : Tick).now) ∧
    (¬ ((⟨[false, false, false, false], true, false, 1, []⟩ : Tick).charge
          = true ∧
        (⟨[false, false, false, false], true, false, 1, []⟩ : Tick).discharge
          = true)) ∧
    (runRound (startRound initState [0, 0, 0, 0]) none
        [⟨[false, false, false, false], true, true, 0, []⟩,
         ⟨[false, false, false, false], true, true, 3, []⟩]
      = .resetDone (fullReset (startRound initState [0, 0, 0, 0])) ∧
     (tickStep (startRound initState [0, 0, 0, 0]) none
        ⟨[false, false, false, false], true, false, 1, []⟩).isReset = false ∧
     (tickStep (startRound initState [0, 0, 0, 0]) none
        ⟨[false, false, false, false], true, false, 1, []⟩).combo = none) :=
  ⟨by simp [startRound, MAX_ACTIONS], rfl, rfl, rfl,
    by intro u hu; simp only [List.mem_singleton] at hu; subst hu;
       exact ⟨rfl, rfl, rfl⟩,
    ⟨⟨[false, false, false, false], true, true, 3, []⟩, by simp, by norm_num⟩,
    by simp,
    C6_reset_combo (startRound initState [0, 0, 0, 0])
      ⟨[false, false, false, false], true, true, 0, []⟩
      [⟨[false, false, false, false], true, true, 3, []⟩] none
      ⟨[false, false, false, false], true, false, 1, []⟩
      (by simp [startRound, MAX_ACTIONS]) rfl rfl rfl
      (by intro u hu; simp only [List.mem_singleton] at hu; subst hu;
          exact ⟨rfl, rfl, rfl⟩)
      ⟨⟨[false, false, false, false], true, true, 3, []⟩, by simp, by norm_num⟩
      (by simp)⟩

end Gamepi

namespace Gamepi

/-- `_handle_action` increments the action count exactly when the
cooldown passes (shared helper). -/
lemma handleAction_actions (s : GameState) (i : ℕ) (b : Button) (now : ℚ)
    (rand : List ℕ) :
    (handleAction s i b now rand).1.actions
      = s.actions
        + (if now - s.last_action_ts.getD i 0 < 1 then 0 else 1) := by
  unfold handleAction
  split <;> simp

/-- A continuing loop iteration increments the action count exactly when
it accepts an action (shared helper). -/
lemma tickStep_cont_actions (s : GameState) (bps : Option ℚ) (t : Tick)
    (s' : GameState) (bps' : Option ℚ)
    (h : tickStep s bps t = .cont s' bps') :
    s'.actions = s.actions + (if acceptedAt s bps t then 1 else 0) := by
  simp only [tickStep] at h
  split at h
  · cases h
  · rename_i hcf
    injection h with h1 h2
    subst h1
    simp only [acceptedAt, Bool.not_eq_true] at hcf ⊢
    simp only [hcf, Bool.not_false, Bool.true_and]
    cases hm : getActiveSensor t.sensors with
    | none => simp [hm]
    | some i =>
      cases hc : t.charge with
      | true =>
        simp only [hc, if_true, Bool.true_or, Bool.true_and,
          handleAction_actions]
        by_cases hcool : t.now - (s.last_action_ts[i]?).getD 0 < 1 <;>
          simp [hcool]
      | false =>
        cases hd : t.discharge with
        | true =>
          simp only [hc, hd, Bool.false_eq_true, Bool.false_or,
            Bool.true_and, if_false, if_true]
          rw [handleAction_actions]
          by_cases hcool : t.now - (s.last_action_ts[i]?).getD 0 < 1 <;>
            simp [hcool]
        | false => simp [hc, hd]

/-- The bookkeeping of one `_play_round` run: a normal exit carries
exactly `MAX_ACTIONS` actions and the accepted count complements the
starting count; an in-play exhaustion keeps the count below the limit;
a reset exit can only happen below the limit (shared helper). -/
lemma runRound_count (ticks : List Tick) : ∀ (s : GameState)
    (bps : Option ℚ), s.actions ≤ MAX_ACTIONS →
    (∀ s', runRound s bps ticks = .roundOver s' →
      s'.actions = MAX_ACTIONS ∧
        s.actions + countAccepted s bps ticks = MAX_ACTIONS) ∧
    (∀ s' bps', runRound s bps ticks = .inPlay s' bps' →
      s'.actions = s.actions + countAccepted s bps ticks ∧
        s'.actions < MAX_ACTIONS) ∧
    (∀ s', runRound s bps ticks = .resetDone s' →
      s.actions + countAccepted s bps ticks < MAX_ACTIONS) := by
  induction ticks with
  | nil =>
    intro s bps hle
    by_cases h : s.actions < MAX_ACTIONS
    · refine ⟨?_, ?_, ?_⟩
      · intro s' hrun
        rw [runRound, if_pos h] at hrun
        cases hrun
      · intro s' bps' hrun
        rw [runRound, if_pos h] at hrun
        injection hrun with h1 h2
        subst h1
        rw [countAccepted]
        omega
      · intro s' hrun
        rw [runRound, if_pos h] at hrun
        cases hrun
    · refine ⟨?_, ?_, ?_⟩
      · intro s' hrun
        rw [runRound, if_neg h] at hrun
        injection hrun with h1
        subst h1
        rw [countAccepted]
        omega
      · intro s' bps' hrun
        rw [runRound, if_neg h] at hrun
        cases hrun
      · intro s' hrun
        rw [runRound, if_neg h] at hrun
        cases hrun
  | cons t rest ih =>
    intro s bps hle
    by_cases h : s.actions < MAX_ACTIONS
    · cases hts : tickStep s bps t with
      | reset s'' =>
        refine ⟨?_, ?_, ?_⟩ <;> intros <;>
          simp_all [runRound, countAccepted, h, hts]
      | cont s'' bps'' =>
        have hacts := tickStep_cont_actions s bps t s'' bps'' hts
        have hle' : s''.actions ≤ MAX_ACTIONS := by
          by_cases hacc : acceptedAt s bps t = true <;>
            simp [hacc] at hacts <;> omega
        obtain ⟨iha, ihb, ihc⟩ := ih s'' bps'' hle'
        refine ⟨?_, ?_, ?_⟩
        · intro s' hrun
          rw [runRound, if_pos h, hts] at hrun
          obtain ⟨h1, h2⟩ := iha s' hrun
          refine ⟨h1, ?_⟩
          rw [countAccepted, if_pos h, hts]
          by_cases hacc : acceptedAt s bps t = true <;>
            simp [hacc] at hacts ⊢ <;> omega
        · intro s' bps' hrun
          rw [runRound, if_pos h, hts] at hrun
          obtain ⟨h1, h2⟩ := ihb s' bps' hrun
          refine ⟨?_, h2⟩
          rw [countAccepted, if_pos h, hts]
          by_cases hacc : acceptedAt s bps t = true <;>
            simp [hacc] at hacts ⊢ <;> omega
        · intro s' hrun
          rw [runRound, if_pos h, hts] at hrun
          have h1 := ihc s' hrun
          rw [countAccepted, if_pos h, hts]
          by_cases hacc : acceptedAt s bps t = true <;>
            simp [hacc] at hacts ⊢ <;> omega
    · refine ⟨?_, ?_, ?_⟩
      · intro s' hrun
        rw [runRound, if_neg h] at hrun
        injection hrun with h1
        subst h1
        rw [countAccepted, if_neg h]
        omega
      · intro s' bps' hrun
        rw [runRound, if_neg h] at hrun
        cases hrun
      · intro s' hrun
        rw [runRound, if_neg h] at hrun
        cases hrun

/-- C5: starting `_play_round` with `actions = 0`, the loop exits
normally back to Idle precisely when the number of accepted actions along
the supplied iterations reaches `MAX_ACTIONS = 10` — the exit state then
carries exactly 10 actions; cooldown-rejected dispatches are not counted
by `countAccepted` and do not advance the loop towards the exit. -/
theorem C5_round_ends_at_ten (s0 : GameState) (ticks : List Tick)
    (h0 : s0.actions = 0) :
    ((runRound s0 none ticks).isOver = true ↔
      countAccepted s0 none ticks = MAX_ACTIONS) ∧
    (∀ s', runRound s0 none ticks = .roundOver s' →
      s'.actions = MAX_ACTIONS) := by
  have hle : s0.actions ≤ MAX_ACTIONS := by rw [h0]; decide
  obtain ⟨ha, hb, hc⟩ := runRound_count ticks s0 none hle
  refine ⟨⟨?_, ?_⟩, ?_⟩
  · intro hover
    cases hrun : runRound s0 none ticks with
    | inPlay s' bps' => rw [hrun] at hover; cases hover
    | resetDone s' => rw [hrun] at hover; cases hover
    | roundOver s' =>
      have := (ha s' hrun).2
      omega
  · intro hcount
    cases hrun : runRound s0 none ticks with
    | roundOver s' => simp [RoundResult.isOver]
    | inPlay s' bps' =>
      obtain ⟨h1, h2⟩ := hb s' bps' hrun
      omega
    | resetDone s' =>
      have := hc s' hrun
      omega
  · intro s' hrun
    exact (ha s' hrun).1

end Gamepi

namespace Gamepi

/-- C5 witness: a fresh round (0 actions taken) instantiates the
round-termination characterisation. -/
theorem C5_round_ends_at_ten_witness :
    ((startRound initState [0, 0, 0, 0]).actions = 0) ∧
    (((runRound (startRound initState [0, 0, 0, 0]) none []).isOver = true ↔
        countAccepted (startRound initState [0, 0, 0, 0]) none []
          = MAX_ACTIONS) ∧
      (∀ s', runRound (startRound initState [0, 0, 0, 0]) none []
          = .roundOver s' → s'.actions = MAX_ACTIONS)) :=
  ⟨rfl, C5_round_ends_at_ten (startRound initState [0, 0, 0, 0]) [] rfl⟩

end Gamepi

/-- C10: the two `Game` classes — gamepi.py's and moonshot.py's — compute
identical state transitions: on the same state and the same inputs
(including identical random LED draws), `_handle_action`,
`_start_new_round`, `_full_reset`, one `_play_round` loop iteration, and a
whole `_play_round` run agree; the two files differ only in their
I/O and GUI-marshalling layer. -/
theorem C10_implementations_agree :
    (∀ (s : Gamepi.GameState) (i : ℕ) (b : Gamepi.Button) (now : ℚ)
        (rand : List ℕ),
      Moonshot.handleAction s i b now rand
        = (Gamepi.handleAction s i b now rand).1) ∧
    (∀ (s : Gamepi.GameState) (rand : List ℕ),
      Moonshot.startRound s rand = Gamepi.startRound s rand) ∧
    (∀ s : Gamepi.GameState, Moonshot.fullReset s = Gamepi.fullReset s) ∧
    (∀ (s : Gamepi.GameState) (bps : Option ℚ) (t : Gamepi.Tick),
      Moonshot.tickStep s bps t = Gamepi.tickStep s bps t) ∧
    (∀ (s : Gamepi.GameState) (bps : Option ℚ) (ticks : List Gamepi.Tick),
      Moonshot.runRound s bps ticks = Gamepi.runRound s bps ticks) := by
  have hha : ∀ (s : Gamepi.GameState) (i : ℕ) (b : Gamepi.Button) (now : ℚ)
      (rand : List ℕ),
      Moonshot.handleAction s i b now rand
        = (Gamepi.handleAction s i b now rand).1 := by
    intro s i b now rand
    unfold Moonshot.handleAction Gamepi.handleAction
    by_cases h : now - s.last_action_ts.getD i 0 < 1
    · rw [if_pos h, if_pos h]
    · rw [if_neg h, if_neg h]
      rfl
  have hts : ∀ (s : Gamepi.GameState) (bps : Option ℚ) (t : Gamepi.Tick),
      Moonshot.tickStep s bps t = Gamepi.tickStep s bps t := by
    intro s bps t
    unfold Moonshot.tickStep Gamepi.tickStep Moonshot.fullReset
      Gamepi.fullReset
    simp only [hha]
  have hrun : ∀ (ticks : List Gamepi.Tick) (s : Gamepi.GameState)
      (bps : Option ℚ),
      Moonshot.runRound s bps ticks = Gamepi.runRound s bps ticks := by
    intro ticks
    induction ticks with
    | nil => intro s bps; rfl
    | cons t rest ih =>
      intro s bps
      rw [Moonshot.runRound, Gamepi.runRound, hts]
      simp only [Moonshot.MAX_ACTIONS, Gamepi.MAX_ACTIONS]
      by_cases h : s.actions < 10
      · rw [if_pos h, if_pos h]
        cases hres : Gamepi.tickStep s bps t with
        | reset s' => rfl
        | cont s' bps' => exact ih s' bps'
      · rw [if_neg h, if_neg h]
  exact ⟨hha, fun s rand => rfl, fun s => rfl, hts,
    fun s bps ticks => hrun ticks s bps⟩
